import Mathlib

/-!
Verification development for the doc_analyzer repository.

The definitions below are a shallow embedding of the Python sources:
  * `src/app/models.py`          — the persisted schema (the authority for columns),
  * `src/app/batch_processor.py` — the background poller, batch-run processing and
                                   the set-membership query evaluator,
  * `src/app/main.py`            — the UI-facing operation handlers.

Python strings are modelled as `List Char` (so that `str.lower` is a per-character
map), database tables as Lean lists of record rows, autoincrement ids as list
lengths, and fallible steps (exceptions) through `Except`/explicit outcome types.
`db.commit` is modelled as succeeding only when the NOT NULL constraints declared
in `models.py` hold for the newly inserted rows; a raised error that the source
catches is modelled by returning the pre-call state together with the error
notification the handler shows.
-/

abbrev Str := List Char

/-- Python `s.lower()` on a string modelled as a character list. -/
def lowerStr (s : Str) : Str := s.map Char.toLower

/-- Python substring containment `needle in hay` (`str.__contains__`). -/
def strContains : Str → Str → Bool
  | needle, [] => needle.isPrefixOf []
  | needle, c :: t => needle.isPrefixOf (c :: t) || strContains needle t

/-- Schema: `models.py` `Document` row: id, name, content, file_type
(uploaded_at is irrelevant to the claims and omitted). -/
structure Document where
  id : Nat
  name : Str
  content : Str
  file_type : Str
deriving DecidableEq, Repr

/-- Schema: `models.py` `DocumentQuery` row: name, query_type, query_value, operator. -/
structure DocumentQuery where
  name : Str
  query_type : Str
  query_value : Str
  operator : Str
deriving DecidableEq, Repr

/-- Schema: `models.py` `DocumentSet` row together with its `queries` relationship and the
`document_set` association table (membership kept as a list of document ids, in
insertion order, exactly as `doc_set.documents.append` builds it). -/
structure DocumentSet where
  id : Nat
  name : Str
  description : Str
  documents : List Nat
  queries : List DocumentQuery
deriving DecidableEq, Repr

/-- Python `getattr(document, query.query_type)` (`batch_processor.py` line 75):
succeeds exactly for the three mapped string attributes a query may target;
any other `query_type` raises `AttributeError`, modelled as `none`. -/
def getattrDoc (d : Document) (qt : Str) : Option Str :=
  if qt = "name".toList then some d.name
  else if qt = "content".toList then some d.content
  else if qt = "file_type".toList then some d.file_type
  else none

/-- The operator dispatch of `process_document_queries`
(`batch_processor.py` lines 74-84): `matches` starts `False` and is set by the
`if`/`elif` chain on `query.operator`; an unknown operator leaves it `False`. -/
def matchesQuery (query : DocumentQuery) (value : Str) : Bool :=
  if query.operator = "contains".toList then
    strContains (lowerStr query.query_value) (lowerStr value)
  else if query.operator = "equals".toList then
    lowerStr query.query_value == lowerStr value
  else if query.operator = "startswith".toList then
    (lowerStr query.query_value).isPrefixOf (lowerStr value)
  else if query.operator = "endswith".toList then
    (lowerStr query.query_value).isSuffixOf (lowerStr value)
  else false

/-- The inner query loop of `process_document_queries`
(`batch_processor.py` lines 73-88) over one set, threading the set row being
mutated: fetch the target attribute (raising on a bad `query_type`), test the
operator, and append the document to the set when it matches and is not yet a
member. -/
def processQueriesGo (document : Document) (qs : List DocumentQuery)
    (cur : DocumentSet) : Except Unit DocumentSet :=
  match qs with
  | [] => Except.ok cur
  | query :: rest =>
    match getattrDoc document query.query_type with
    | none => Except.error ()
    | some value =>
      let isMatch := matchesQuery query value
      let cur2 :=
        if isMatch ∧ document.id ∉ cur.documents then
          { cur with documents := cur.documents ++ [document.id] }
        else cur
      processQueriesGo document rest cur2

/-- The outer set loop of `process_document_queries`
(`batch_processor.py` lines 72-88): process every set's queries in order; the
first raised error aborts the whole traversal. -/
def processSets (document : Document) : List DocumentSet → Except Unit (List DocumentSet)
  | [] => Except.ok []
  | s :: rest =>
    match processQueriesGo document s.queries s with
    | Except.error e => Except.error e
    | Except.ok s2 =>
      match processSets document rest with
      | Except.error e => Except.error e
      | Except.ok rest2 => Except.ok (s2 :: rest2)

/-- Embedding of `process_document_queries` (`batch_processor.py` lines 66-93): the whole
traversal runs inside one transaction, committed once at line 90; on any raised
error the `except` handler rolls the transaction back (line 93), leaving the
stored membership exactly as before the call. -/
def process_document_queries (document : Document) (db : List DocumentSet) :
    List DocumentSet :=
  match processSets document db with
  | Except.ok db2 => db2
  | Except.error _ => db

/-- A query's `getattr` succeeds for this document (its `query_type` is one of the
three mapped attributes). -/
def validQuery (d : Document) (q : DocumentQuery) : Bool :=
  (getattrDoc d q.query_type).isSome

/-- Whether one stored query matches the document (attribute fetch plus operator
comparison, `False` when the attribute fetch would raise). -/
def queryMatches (d : Document) (q : DocumentQuery) : Bool :=
  match getattrDoc d q.query_type with
  | some v => matchesQuery q v
  | none => false

/-- The net effect of one evaluator pass on a single set when no error occurs:
the document id is appended exactly when some stored query matches and the
document is not already a member. -/
def setUpdate (d : Document) (s : DocumentSet) : DocumentSet :=
  if s.queries.any (queryMatches d) ∧ d.id ∉ s.documents then
    { s with documents := s.documents ++ [d.id] }
  else s

lemma setUpdate_queries (d : Document) (s : DocumentSet) :
    (setUpdate d s).queries = s.queries := by
  unfold setUpdate; split <;> rfl

lemma setUpdate_idem (d : Document) (s : DocumentSet) :
    setUpdate d (setUpdate d s) = setUpdate d s := by
  unfold setUpdate
  split
  · next h =>
    rw [if_neg]
    intro h2
    exact h2.2 (by simp)
  · rfl

lemma processQueriesGo_eq (d : Document) (qs : List DocumentQuery) (cur : DocumentSet) :
    processQueriesGo d qs cur =
      if qs.all (validQuery d) then
        Except.ok (if qs.any (queryMatches d) ∧ d.id ∉ cur.documents then
                     { cur with documents := cur.documents ++ [d.id] }
                   else cur)
      else Except.error () := by
  induction qs generalizing cur with
  | nil => simp [processQueriesGo]
  | cons q rest ih =>
    simp only [processQueriesGo, List.all_cons, List.any_cons]
    cases hget : getattrDoc d q.query_type with
    | none =>
      have hv : validQuery d q = false := by simp [validQuery, hget]
      simp [hv]
    | some v =>
      have hv : validQuery d q = true := by simp [validQuery, hget]
      have hq : queryMatches d q = matchesQuery q v := by simp [queryMatches, hget]
      simp only [ih, hv, Bool.true_and, hq]
      by_cases hmem : d.id ∈ cur.documents
      · by_cases hall : rest.all (validQuery d) = true <;>
          simp [hmem, hall]
      · cases hm : matchesQuery q v with
        | true =>
          by_cases hall : rest.all (validQuery d) = true <;>
            simp [hmem, hall]
        | false =>
          by_cases hall : rest.all (validQuery d) = true <;>
            simp [hmem, hall]

lemma processSets_eq (d : Document) (db : List DocumentSet) :
    processSets d db =
      if db.all (fun s => s.queries.all (validQuery d)) then
        Except.ok (db.map (setUpdate d))
      else Except.error () := by
  induction db with
  | nil => simp [processSets]
  | cons s rest ih =>
    simp only [processSets, List.all_cons, List.map_cons]
    rw [processQueriesGo_eq, ih]
    by_cases h1 : s.queries.all (validQuery d) = true
    · by_cases h2 : rest.all (fun s => s.queries.all (validQuery d)) = true <;>
        simp [h1, h2, setUpdate]
    · simp [h1]

lemma process_document_queries_eq (d : Document) (db : List DocumentSet) :
    process_document_queries d db =
      if db.all (fun s => s.queries.all (validQuery d)) then db.map (setUpdate d)
      else db := by
  unfold process_document_queries
  rw [processSets_eq]
  by_cases h : db.all (fun s => s.queries.all (validQuery d)) = true <;> simp [h]

lemma strContains_iff (n h : Str) : strContains n h = true ↔ n <:+: h := by
  induction h with
  | nil =>
    simp [strContains, List.isPrefixOf_iff_prefix, List.infix_nil, List.prefix_nil]
  | cons c t ih =>
    simp [strContains, List.isPrefixOf_iff_prefix, ih, List.infix_cons_iff]

/-- Claim C8: the evaluator computes, per operator, the case-insensitive
comparison between the query's comparison string and the document's target
field value: `contains` is lowered-substring containment, `equals` lowered
equality, `startswith` lowered prefix, `endswith` lowered suffix; and
`getattr` resolves the three legal `query_type` values to the corresponding
document fields. -/
theorem c8_operator_semantics (d : Document) (qt qv nm value : Str) :
    getattrDoc d ("name".toList) = some d.name ∧
    getattrDoc d ("content".toList) = some d.content ∧
    getattrDoc d ("file_type".toList) = some d.file_type ∧
    (matchesQuery ⟨nm, qt, qv, "contains".toList⟩ value = true ↔
      lowerStr qv <:+: lowerStr value) ∧
    (matchesQuery ⟨nm, qt, qv, "equals".toList⟩ value = true ↔
      lowerStr qv = lowerStr value) ∧
    (matchesQuery ⟨nm, qt, qv, "startswith".toList⟩ value = true ↔
      lowerStr qv <+: lowerStr value) ∧
    (matchesQuery ⟨nm, qt, qv, "endswith".toList⟩ value = true ↔
      lowerStr qv <:+ lowerStr value) := by
  refine ⟨?_, ?_, ?_, ?_, ?_, ?_, ?_⟩
  · rw [getattrDoc, if_pos rfl]
  · rw [getattrDoc, if_neg (by decide), if_pos rfl]
  · rw [getattrDoc, if_neg (by decide), if_neg (by decide), if_pos rfl]
  · simp +decide [matchesQuery, strContains_iff]
  · simp +decide [matchesQuery]
  · simp +decide [matchesQuery, List.isPrefixOf_iff_prefix]
  · simp +decide [matchesQuery, List.isSuffixOf_iff_suffix]

/-- Claim C10: one evaluator call over a document is atomic — its result is
either the pre-call state unchanged (the rollback branch) or the state with
every matching set's membership addition applied (the single commit), as the
equation on the right-hand side makes explicit. -/
theorem c10_atomic_evaluation (d : Document) (db : List DocumentSet) :
    (process_document_queries d db =
      if db.all (fun s => s.queries.all (validQuery d)) then db.map (setUpdate d)
      else db) ∧
    (process_document_queries d db = db.map (setUpdate d) ∨
      process_document_queries d db = db) := by
  refine ⟨process_document_queries_eq d db, ?_⟩
  rw [process_document_queries_eq d db]
  by_cases h : db.all (fun s => s.queries.all (validQuery d)) = true
  · left; rw [if_pos h]
  · right; rw [if_neg h]

/-- Claim C3: the evaluator only ever grows set membership (no run removes a
document from any set), re-running it is idempotent, and a document is added
to a set at most once no matter how often the evaluator runs over it. -/
theorem c3_membership_monotone_idempotent (d : Document) (db : List DocumentSet) :
    List.Forall₂ (fun s s2 => s.documents ⊆ s2.documents) db
      (process_document_queries d db) ∧
    process_document_queries d (process_document_queries d db) =
      process_document_queries d db ∧
    List.Forall₂ (fun s s2 => s2.documents.count d.id ≤ max (s.documents.count d.id) 1)
      db (process_document_queries d db) := by
  rw [process_document_queries_eq d db]
  by_cases h : db.all (fun s => s.queries.all (validQuery d)) = true
  · rw [if_pos h]
    refine ⟨?_, ?_, ?_⟩
    · rw [List.forall₂_map_right_iff, List.forall₂_same]
      intro s _
      unfold setUpdate
      split
      · exact List.subset_append_left _ _
      · exact fun _ hx => hx
    · have hall2 : (db.map (setUpdate d)).all (fun s => s.queries.all (validQuery d)) = true := by
        rw [List.all_map]
        refine List.all_eq_true.mpr ?_
        intro s hs
        rw [Function.comp_apply, setUpdate_queries]
        exact List.all_eq_true.mp h s hs
      rw [process_document_queries_eq, if_pos hall2, List.map_map]
      refine List.map_congr_left ?_
      intro s _
      exact setUpdate_idem d s
    · rw [List.forall₂_map_right_iff, List.forall₂_same]
      intro s _
      unfold setUpdate
      split
      · next hc =>
        rw [List.count_append]
        rw [List.count_eq_zero.mpr hc.2]
        simp
      · exact le_max_left _ _
  · rw [if_neg h]
    refine ⟨?_, ?_, ?_⟩
    · rw [List.forall₂_same]
      exact fun s _ x hx => hx
    · rw [process_document_queries_eq, if_neg h]
    · rw [List.forall₂_same]
      exact fun s _ => le_max_left _ _

/-- Schema: `models.py` `BatchRun` row (lines 114-126). The mapped columns are exactly
id, name, status, scheduled_for, created_at, completed_at plus the documents /
prompts / results relationships; there is no description and no
rejection_reason column. `scheduled_for` is declared `nullable=False`. -/
structure BatchRunRow where
  id : Nat
  name : String
  status : String
  scheduled_for : Option Nat
  created_at : Nat
  completed_at : Option Nat
  documents : List Nat
  prompts : List Nat
deriving DecidableEq, Repr

/-- Schema: `models.py` `Result` row (lines 128-141): foreign keys to document, prompt
and batch run, plus the response text (the autoincrement id is omitted; rows
are counted, never addressed by id, in the claims). -/
structure ResultRow where
  document_id : Option Nat
  prompt_id : Option Nat
  batch_run_id : Nat
  response : String
deriving DecidableEq, Repr

/-- The notification kinds `ui.notify` distinguishes in `main.py`
(`type='positive' | 'negative' | 'warning'`, default treated as positive). -/
inductive Notification where
  | positive : String → Notification
  | negative : String → Notification
  | warning : String → Notification
deriving DecidableEq, Repr

/-- The slice of the database the batch-run operations touch: the batch_runs
and results tables plus the ids present in the documents and prompts tables. -/
structure BatchDB where
  runs : List BatchRunRow
  results : List ResultRow
  documents : List Nat
  prompts : List Nat
deriving DecidableEq, Repr

/-- Lookup `db.query(BatchRun).get(batch_run_id)`: the row with the given primary key. -/
def getRun (db : BatchDB) (rid : Nat) : Option BatchRunRow :=
  db.runs.find? (fun r => r.id == rid)

/-- Mutating the fetched ORM row and committing: the row with this id is
replaced by its update, every other row is untouched. -/
def updateRun (db : BatchDB) (rid : Nat) (f : BatchRunRow → BatchRunRow) : BatchDB :=
  { db with runs := db.runs.map (fun r => if r.id == rid then f r else r) }

/-- The placeholder `Result` row `process_document_with_prompt` persists
(`batch_processor.py` lines 17-26); the source interpolates the document and
prompt names into the response, the model uses their ids. -/
def mkResult (did pid rid : Nat) : ResultRow :=
  { document_id := some did, prompt_id := some pid, batch_run_id := rid,
    response := "Processed document " ++ toString did ++ " with prompt " ++ toString pid }

/-- Embedding of `process_document_with_prompt` (`batch_processor.py` lines 10-32): persist
one placeholder result and return `True`; any raised error is caught inside,
logged, and surfaces only as `False` with no row added. The oracle `ok` says
which (document, prompt) pairs process without raising. -/
def process_document_with_prompt (ok : Nat → Nat → Bool) (did pid rid : Nat)
    (db : BatchDB) : BatchDB × Bool :=
  if ok did pid then
    ({ db with results := db.results ++ [mkResult did pid rid] }, true)
  else (db, false)

/-- The inner `for prompt in batch_run.prompts` loop of `process_batch_run`
(`batch_processor.py` lines 48-51), threading the database and the running
`success` flag (`success = False` on a failed pair, no break). -/
def runPromptLoop (ok : Nat → Nat → Bool) (did rid : Nat) (pids : List Nat)
    (st : BatchDB × Bool) : BatchDB × Bool :=
  match pids with
  | [] => st
  | pid :: rest =>
    let r := process_document_with_prompt ok did pid rid st.1
    runPromptLoop ok did rid rest (r.1, st.2 && r.2)

/-- The outer `for document in batch_run.documents` loop of `process_batch_run`
(`batch_processor.py` lines 47-51). -/
def runDocLoop (ok : Nat → Nat → Bool) (rid : Nat) (dids pids : List Nat)
    (st : BatchDB × Bool) : BatchDB × Bool :=
  match dids with
  | [] => st
  | did :: rest => runDocLoop ok rid rest pids (runPromptLoop ok did rid pids st)

/-- Embedding of `process_batch_run` (`batch_processor.py` lines 34-64): fetch the run (a
missing id only logs), set status `running`, attempt every (document, prompt)
pair, then set status `completed` when every pair succeeded and `failed`
otherwise, recording `completed_at` in both cases. -/
def process_batch_run (ok : Nat → Nat → Bool) (now rid : Nat) (db : BatchDB) :
    BatchDB :=
  match getRun db rid with
  | none => db
  | some run =>
    let db1 := updateRun db rid (fun r => { r with status := "running" })
    let st := runDocLoop ok rid run.documents run.prompts (db1, true)
    updateRun st.1 rid
      (fun r => { r with status := if st.2 then "completed" else "failed",
                         completed_at := some now })

/-- Every (document, prompt) pair of the run processes without raising. -/
def batchSuccess (ok : Nat → Nat → Bool) (run : BatchRunRow) : Bool :=
  run.documents.all (fun did => run.prompts.all (fun pid => ok did pid))

/-- The result rows one document's prompt loop persists: one per pair that
processed successfully. -/
def promptRows (ok : Nat → Nat → Bool) (did rid : Nat) (pids : List Nat) :
    List ResultRow :=
  pids.filterMap (fun pid => if ok did pid then some (mkResult did pid rid) else none)

/-- The result rows the whole nested pair loop persists. -/
def pairRows (ok : Nat → Nat → Bool) (rid : Nat) (dids pids : List Nat) :
    List ResultRow :=
  match dids with
  | [] => []
  | did :: rest => promptRows ok did rid pids ++ pairRows ok rid rest pids

/-- The filter of the poller's scheduled-run query
(`batch_processor.py` lines 110-115): status `pending` and a scheduled time at
or before now (a SQL NULL compares as no match). -/
def pendingAndDue (now : Nat) (r : BatchRunRow) : Bool :=
  r.status == "pending" &&
    (match r.scheduled_for with
     | some t => decide (t ≤ now)
     | none => false)

/-- The dispatch loop over the runs the poller found due
(`batch_processor.py` lines 117-119); the spawned tasks are modelled as
running sequentially in list order. -/
def pollerGo (ok : Nat → Nat → Bool) (now : Nat) (pending : List BatchRunRow)
    (db : BatchDB) : BatchDB :=
  match pending with
  | [] => db
  | r :: rest => pollerGo ok now rest (process_batch_run ok now r.id db)

/-- One tick of `check_and_process_scheduled_runs`
(`batch_processor.py` lines 95-126), restricted to its batch-run half: collect
the pending runs whose scheduled time has passed, then process each (the
document-query half of the tick is `process_document_queries` above). -/
def poller_tick (ok : Nat → Nat → Bool) (now : Nat) (db : BatchDB) : BatchDB :=
  pollerGo ok now (db.runs.filter (pendingAndDue now)) db

lemma runPromptLoop_eq (ok : Nat → Nat → Bool) (did rid : Nat) (pids : List Nat)
    (st : BatchDB × Bool) :
    runPromptLoop ok did rid pids st =
      ({ st.1 with results := st.1.results ++ promptRows ok did rid pids },
       st.2 && pids.all (fun pid => ok did pid)) := by
  induction pids generalizing st with
  | nil => simp [runPromptLoop, promptRows]
  | cons pid rest ih =>
    simp only [runPromptLoop, process_document_with_prompt]
    cases h : ok did pid with
    | true => simp [h, ih, promptRows, List.filterMap_cons, Bool.and_assoc]
    | false => simp [h, ih, promptRows, List.filterMap_cons, Bool.and_assoc]

lemma runDocLoop_eq (ok : Nat → Nat → Bool) (rid : Nat) (dids pids : List Nat)
    (st : BatchDB × Bool) :
    runDocLoop ok rid dids pids st =
      ({ st.1 with results := st.1.results ++ pairRows ok rid dids pids },
       st.2 && dids.all (fun did => pids.all (fun pid => ok did pid))) := by
  induction dids generalizing st with
  | nil => simp [runDocLoop, pairRows]
  | cons did rest ih =>
    simp only [runDocLoop]
    rw [runPromptLoop_eq]
    simp [ih, pairRows, List.append_assoc, Bool.and_assoc]

lemma process_batch_run_eq (ok : Nat → Nat → Bool) (now rid : Nat) (db : BatchDB)
    (run : BatchRunRow) (h : getRun db rid = some run) :
    process_batch_run ok now rid db =
      { db with
        runs := db.runs.map (fun r =>
          if r.id == rid then
            { r with status := if batchSuccess ok run then "completed" else "failed",
                     completed_at := some now }
          else r),
        results := db.results ++ pairRows ok rid run.documents run.prompts } := by
  unfold process_batch_run
  rw [h]
  simp only [runDocLoop_eq, updateRun, List.map_map, Bool.true_and, batchSuccess]
  congr 1
  refine List.map_congr_left ?_
  intro r _
  by_cases hid : r.id = rid <;> simp [hid]

lemma find?_map_id_pres (l : List BatchRunRow) (g : BatchRunRow → BatchRunRow)
    (hg : ∀ r, (g r).id = r.id) (rid : Nat) :
    (l.map g).find? (fun r => r.id == rid) = (l.find? (fun r => r.id == rid)).map g := by
  induction l with
  | nil => rfl
  | cons a t ih =>
    simp only [List.map_cons, List.find?_cons]
    cases hp : (a.id == rid) with
    | true =>
      have hp2 : ((g a).id == rid) = true := by rw [hg]; exact hp
      simp [hp2]
    | false =>
      have hp2 : ((g a).id == rid) = false := by rw [hg]; exact hp
      simp [hp2, ih]

lemma getRun_process_batch_run_self (ok : Nat → Nat → Bool) (now rid : Nat)
    (db : BatchDB) (run : BatchRunRow) (h : getRun db rid = some run) :
    getRun (process_batch_run ok now rid db) rid =
      some { run with status := if batchSuccess ok run then "completed" else "failed",
                      completed_at := some now } := by
  rw [process_batch_run_eq ok now rid db run h]
  unfold getRun at h ⊢
  rw [find?_map_id_pres _ _ (fun r => by by_cases hr : r.id = rid <;> simp [hr]) rid]
  rw [h]
  have hid : run.id = rid := by simpa using List.find?_some h
  simp [hid]

lemma getRun_process_batch_run_other (ok : Nat → Nat → Bool) (now rid rid' : Nat)
    (db : BatchDB) (hne : rid' ≠ rid) :
    getRun (process_batch_run ok now rid db) rid' = getRun db rid' := by
  cases hg : getRun db rid with
  | none =>
    unfold process_batch_run
    rw [hg]
  | some run =>
    rw [process_batch_run_eq ok now rid db run hg]
    unfold getRun
    rw [find?_map_id_pres _ _ (fun r => by by_cases hr : r.id = rid <;> simp [hr]) rid']
    cases hf : db.runs.find? (fun r => r.id == rid') with
    | none => rfl
    | some r =>
      have hpr : r.id = rid' := by simpa using List.find?_some hf
      simp [hpr, hne]

lemma mem_pairRows (ok : Nat → Nat → Bool) (rid did pid : Nat) (dids pids : List Nat)
    (hd : did ∈ dids) (hp : pid ∈ pids) (hok : ok did pid = true) :
    mkResult did pid rid ∈ pairRows ok rid dids pids := by
  induction dids with
  | nil => cases hd
  | cons a t ih =>
    rw [pairRows, List.mem_append]
    rcases List.mem_cons.mp hd with h1 | h1
    · left
      subst h1
      exact List.mem_filterMap.mpr ⟨pid, hp, by rw [if_pos hok]⟩
    · right
      exact ih h1

/-- Claim C9: during batch processing, a failed (document, prompt) pair does not
stop the remaining pairs (every pair whose own processing succeeds gets its
result row persisted, regardless of other pairs failing), the run's final
status is `completed` exactly when every pair succeeded and `failed` otherwise,
and the completion timestamp is recorded in both cases. -/
theorem c9_pair_failure_isolated (ok : Nat → Nat → Bool) (now rid : Nat)
    (db : BatchDB) (run : BatchRunRow) (h : getRun db rid = some run) :
    getRun (process_batch_run ok now rid db) rid =
      some { run with status := if batchSuccess ok run then "completed" else "failed",
                      completed_at := some now } ∧
    (∀ did ∈ run.documents, ∀ pid ∈ run.prompts, ok did pid = true →
       mkResult did pid rid ∈ (process_batch_run ok now rid db).results) := by
  refine ⟨getRun_process_batch_run_self ok now rid db run h, ?_⟩
  intro did hd pid hp hok
  rw [process_batch_run_eq ok now rid db run h]
  exact List.mem_append.mpr (Or.inr (mem_pairRows ok rid did pid _ _ hd hp hok))

/-- Concrete check of `c9_pair_failure_isolated`: a run over documents [1, 2]
and prompt [10] where pair (1, 10) fails: the run ends `failed` with a
completion timestamp, yet the surviving pair (2, 10) still persisted its
result row. -/
theorem c9_pair_failure_isolated_witness :
    getRun (process_batch_run (fun did pid => !(did == 1 && pid == 10)) 99 5
        { runs := [{ id := 5, name := "r", status := "pending", scheduled_for := some 0,
                     created_at := 0, completed_at := none,
                     documents := [1, 2], prompts := [10] }],
          results := [], documents := [1, 2], prompts := [10] }) 5 =
      some { id := 5, name := "r",
             status := if batchSuccess (fun did pid => !(did == 1 && pid == 10))
                 { id := 5, name := "r", status := "pending", scheduled_for := some 0,
                   created_at := 0, completed_at := none,
                   documents := [1, 2], prompts := [10] } then "completed" else "failed",
             scheduled_for := some 0, created_at := 0, completed_at := some 99,
             documents := [1, 2], prompts := [10] } ∧
    (∀ did ∈ [1, 2], ∀ pid ∈ [10],
       (fun did pid => !(did == 1 && pid == 10)) did pid = true →
       mkResult did pid 5 ∈ (process_batch_run (fun did pid => !(did == 1 && pid == 10)) 99 5
         { runs := [{ id := 5, name := "r", status := "pending", scheduled_for := some 0,
                      created_at := 0, completed_at := none,
                      documents := [1, 2], prompts := [10] }],
           results := [], documents := [1, 2], prompts := [10] }).results) :=
  c9_pair_failure_isolated (fun did pid => !(did == 1 && pid == 10)) 99 5
    { runs := [{ id := 5, name := "r", status := "pending", scheduled_for := some 0,
                 created_at := 0, completed_at := none,
                 documents := [1, 2], prompts := [10] }],
      results := [], documents := [1, 2], prompts := [10] }
    { id := 5, name := "r", status := "pending", scheduled_for := some 0,
      created_at := 0, completed_at := none, documents := [1, 2], prompts := [10] }
    (by rfl)

/-- Autoincrement primary key for a newly inserted batch run, modelled as the
current row count. -/
def freshRunId (db : BatchDB) : Nat := db.runs.length

/-- The NOT NULL constraint of `models.py` relevant to new `batch_runs` rows:
`scheduled_for = Column(DateTime, nullable=False)` (line 120). An INSERT whose
`scheduled_for` is NULL raises `IntegrityError` at commit. -/
def notNullOk (r : BatchRunRow) : Bool := r.scheduled_for.isSome

/-- Embedding of `BatchRunScheduler.approve_run` (`main.py` lines 1424-1445): an empty
schedule time only warns; a missing run notifies an error; otherwise the
targeted run — whatever its current status — gets status `approved` and the
chosen schedule time. -/
def approve_run (db : BatchDB) (runId : Option Nat) (scheduleTime : Option Nat) :
    BatchDB × Notification :=
  match scheduleTime with
  | none => (db, Notification.warning "Please select a schedule time")
  | some t =>
    match runId with
    | none => (db, Notification.negative "Batch run not found")
    | some rid =>
      match getRun db rid with
      | none => (db, Notification.negative "Batch run not found")
      | some _ =>
        (updateRun db rid (fun r => { r with status := "approved", scheduled_for := some t }),
         Notification.positive "Batch run approved successfully!")

/-- Embedding of `BatchRunScheduler.reject_run` (`main.py` lines 1447-1468): an empty reason
only warns; otherwise the targeted run gets status `rejected`. The handler also
assigns `run.rejection_reason`, but `models.BatchRun` maps no such column, so
that write is a transient instance attribute and only the status persists. -/
def reject_run (db : BatchDB) (runId : Option Nat) (reason : String) :
    BatchDB × Notification :=
  if reason = "" then (db, Notification.warning "Please provide a reason for rejection")
  else
    match runId with
    | none => (db, Notification.negative "Batch run not found")
    | some rid =>
      match getRun db rid with
      | none => (db, Notification.negative "Batch run not found")
      | some _ =>
        (updateRun db rid (fun r => { r with status := "rejected" }),
         Notification.positive "Batch run rejected")

/-- The attribute names the SQLAlchemy declarative constructor accepts for
`BatchRun` — its mapped columns and relationships (`models.py` lines 114-126).
Neither `description` nor `rejection_reason` is among them. -/
def batchRunMappedAttrs : List String :=
  ["id", "name", "status", "scheduled_for", "created_at", "completed_at",
   "documents", "prompts", "results"]

/-- The declarative base constructor: keyword arguments that do not name a
mapped attribute raise `TypeError`. -/
def declarativeInit (mappedAttrs kwargs : List String) : Except String Unit :=
  if kwargs.all (fun k => mappedAttrs.contains k) then Except.ok ()
  else Except.error "invalid keyword argument"

/-- Embedding of `PromptManager.submit_batch_request` (`main.py` lines 810-850): after the
two input guards it calls `BatchRun(name=..., description=..., status=...,
scheduled_for=...)`. Because `description` is not a mapped attribute the
constructor raises `TypeError`, the surrounding `except` shows the error
notification, and nothing is persisted. (Were the constructor to succeed, the
row would still carry `scheduled_for = None` — the admin sets it later — and
violate its NOT NULL constraint at commit.) -/
def submit_batch_request (db : BatchDB) (batchName desc : String)
    (docSets promptsSel : List Nat) : BatchDB × Notification :=
  if batchName = "" then (db, Notification.warning "Please enter a batch run name")
  else if docSets.isEmpty || promptsSel.isEmpty then
    (db, Notification.warning "Please select both document sets and prompts")
  else
    match declarativeInit batchRunMappedAttrs
        ["name", "description", "status", "scheduled_for"] with
    | Except.error _ => (db, Notification.negative "Error submitting batch run request")
    | Except.ok _ => (db, Notification.negative "Error submitting batch run request")

/-- The `BatchRun` row `PromptManager.run_prompts` constructs (`main.py` lines
869-883): already `completed` with a completion timestamp at creation;
`scheduled_for` is never assigned; only documents found in the database are
attached, and the attached prompts are the selected ones that exist. -/
def run_prompts_run (db : BatchDB) (selectedDocs selectedPrompts : List Nat)
    (now : Nat) : BatchRunRow :=
  { id := freshRunId db,
    name := "Manual Run",
    status := "completed",
    scheduled_for := none,
    created_at := now,
    completed_at := some now,
    documents := selectedDocs.filter (fun did => db.documents.contains did),
    prompts := db.prompts.filter (fun pid => selectedPrompts.contains pid) }

/-- The result rows `run_prompts` adds (`main.py` lines 886-902): one per
(selected document id, fetched prompt) pair — including selected ids that no
longer exist in the documents table, whose rows get a NULL document. -/
def run_prompts_rows (db : BatchDB) (selectedPrompts : List Nat) (rid : Nat) :
    List Nat → List ResultRow
  | [] => []
  | did :: rest =>
    (db.prompts.filter (fun pid => selectedPrompts.contains pid)).map
      (fun pid =>
        { document_id := if db.documents.contains did then some did else none,
          prompt_id := some pid, batch_run_id := rid,
          response := "Processed document " ++ toString did ++
            " with prompt " ++ toString pid })
      ++ run_prompts_rows db selectedPrompts rid rest

/-- The state `run_prompts` writes to the ORM session before its commit. -/
def run_prompts_session (db : BatchDB) (selectedDocs selectedPrompts : List Nat)
    (now : Nat) : BatchDB :=
  { db with
    runs := db.runs ++ [run_prompts_run db selectedDocs selectedPrompts now],
    results := db.results ++
      run_prompts_rows db selectedPrompts (freshRunId db) selectedDocs }

/-- Embedding of `PromptManager.run_prompts` (`main.py` lines 852-922): input guards, then
the session writes above, then `db.commit()`; the new run's NULL
`scheduled_for` violates its NOT NULL constraint, the `except` at line 921
shows the error notification, and nothing is persisted. -/
def run_prompts (db : BatchDB) (selectedDocs selectedPrompts : List Nat)
    (now : Nat) : BatchDB × Notification :=
  if selectedDocs.isEmpty then
    (db, Notification.warning "Please select at least one document")
  else if selectedPrompts.isEmpty then
    (db, Notification.warning "Please select at least one prompt")
  else if notNullOk (run_prompts_run db selectedDocs selectedPrompts now) then
    (run_prompts_session db selectedDocs selectedPrompts now,
     Notification.positive "Processing complete!")
  else (db, Notification.negative "Error running prompts")

/-- One entry of `self.results_to_save` in `PromptManager.save_results`
(`main.py` lines 948-955): the result dicts carry document id, prompt id and
the response text. -/
structure SavedResult where
  document_id : Nat
  prompt_id : Nat
  result : String
deriving DecidableEq, Repr

/-- The `BatchRun` row `save_results` constructs (`main.py` lines 940-944):
already `completed` with a completion timestamp; no documents, prompts or
schedule are ever attached to it. -/
def save_results_run (db : BatchDB) (runName : String) (now : Nat) : BatchRunRow :=
  { id := freshRunId db, name := runName, status := "completed",
    scheduled_for := none, created_at := now, completed_at := some now,
    documents := [], prompts := [] }

/-- The result rows `save_results` adds: one per saved entry. -/
def save_results_rows (rid : Nat) (toSave : List SavedResult) : List ResultRow :=
  toSave.map (fun rd =>
    { document_id := some rd.document_id, prompt_id := some rd.prompt_id,
      batch_run_id := rid, response := rd.result })

/-- The state `save_results` writes to the ORM session before its commit. -/
def save_results_session (db : BatchDB) (runName : String)
    (toSave : List SavedResult) (now : Nat) : BatchDB :=
  { db with
    runs := db.runs ++ [save_results_run db runName now],
    results := db.results ++ save_results_rows (freshRunId db) toSave }

/-- Embedding of `PromptManager.save_results` (`main.py` lines 930-965): name guard, then the
session writes above, then `db.commit()`; the new run's NULL `scheduled_for`
violates its NOT NULL constraint, the `except` at line 964 shows the error
notification, and nothing is persisted. -/
def save_results (db : BatchDB) (runName : String) (toSave : List SavedResult)
    (now : Nat) : BatchDB × Notification :=
  if runName = "" then (db, Notification.warning "Please enter a run name")
  else if notNullOk (save_results_run db runName now) then
    (save_results_session db runName toSave now,
     Notification.positive "Results saved successfully!")
  else (db, Notification.negative "Error saving results")

/-- Schema: `models.py` `Feedback` row (lines 143-152): result foreign key, integer
rating (the schema itself imposes no range), optional comment. -/
structure FeedbackRow where
  result_id : Option Nat
  rating : Int
  comment : String
deriving DecidableEq, Repr

/-- Result of a UI action handler: it either returns normally, showing a
notification (possibly the error notification of an internal `except`), or it
lets an exception propagate to its caller. -/
inductive UIOutcome (α : Type) where
  | handled : α → Notification → UIOutcome α
  | raised : String → UIOutcome α
deriving DecidableEq, Repr

/-- The handler propagated an exception instead of returning. -/
def raisesB {α : Type} : UIOutcome α → Bool
  | UIOutcome.raised _ => true
  | UIOutcome.handled _ _ => false

/-- Embedding of `ResultsViewer.submit_feedback` (`main.py` lines 1739-1760): the only input
check is Python falsiness of the selected rating (`if not
self.rating_select.value`), rejecting exactly a missing rating or the integer
0; every other rating value is persisted as given, inside try/except, so a
database failure (`ioFail`) surfaces as a notification, never as an exception. -/
def submit_feedback (ioFail : Bool) (rating : Option Int) (comment : String)
    (resultId : Option Nat) (db : List FeedbackRow) : UIOutcome (List FeedbackRow) :=
  match rating with
  | none => UIOutcome.handled db (Notification.warning "Please select a rating")
  | some r =>
    if r = 0 then UIOutcome.handled db (Notification.warning "Please select a rating")
    else if ioFail then
      UIOutcome.handled db (Notification.negative "Error submitting feedback")
    else
      UIOutcome.handled (db ++ [{ result_id := resultId, rating := r, comment := comment }])
        (Notification.positive "Feedback submitted successfully")

/-- The rating values offered by the feedback dialog's select widget
(`main.py` lines 752-761): 1 to 5 stars. -/
def uiRatingOptions : List Int := [1, 2, 3, 4, 5]

/-- Schema: `models.py` `Prompt` row: name and content. -/
structure PromptRow where
  name : String
  content : String
deriving DecidableEq, Repr

/-- Embedding of `PromptManager.save_prompt` (`main.py` lines 1060-1079): input guard, insert
and commit with NO try/except anywhere in the handler — a database failure
(`ioFail`) propagates to the caller. -/
def save_prompt (ioFail : Bool) (promptName promptContent : String)
    (db : List PromptRow) : UIOutcome (List PromptRow) :=
  if promptName = "" ∨ promptContent = "" then
    UIOutcome.handled db (Notification.warning "Please enter both name and content")
  else if ioFail then UIOutcome.raised "DatabaseError"
  else
    UIOutcome.handled (db ++ [{ name := promptName, content := promptContent }])
      (Notification.positive "Prompt saved successfully!")

/-- Embedding of `DocumentViewer.create_set` (`main.py` lines 386-415): name guard, build the
new set (documents from the current selection, plus one auto-query when all
three query inputs are filled), insert and commit with NO try/except — a
database failure propagates to the caller. -/
def create_set (ioFail : Bool) (setName desc : Str) (selDocs : List Nat)
    (queryOpt : Option DocumentQuery) (db : List DocumentSet) :
    UIOutcome (List DocumentSet) :=
  if setName.isEmpty then
    UIOutcome.handled db (Notification.warning "Please enter a set name")
  else
    let newSet : DocumentSet :=
      { id := db.length, name := setName, description := desc,
        documents := selDocs,
        queries := match queryOpt with | some q => [q] | none => [] }
    if ioFail then UIOutcome.raised "DatabaseError"
    else UIOutcome.handled (db ++ [newSet]) (Notification.positive "Set created successfully")

/-- The per-set body of `add_to_set`: append each selected document not already
a member, in order. -/
def appendNewDocs : List Nat → List Nat → List Nat
  | ds, [] => ds
  | ds, d :: rest => appendNewDocs (if d ∈ ds then ds else ds ++ [d]) rest

/-- Embedding of `DocumentViewer.add_to_set` (`main.py` lines 427-446): set-selection guard,
then for every chosen set append the selected documents not already members,
and commit with NO try/except — a database failure propagates to the caller. -/
def add_to_set (ioFail : Bool) (selSets selDocs : List Nat)
    (db : List DocumentSet) : UIOutcome (List DocumentSet) :=
  if selSets.isEmpty then
    UIOutcome.handled db (Notification.warning "Please select at least one set")
  else
    let db2 := selSets.foldl (fun acc sid =>
      acc.map (fun s =>
        if s.id == sid then { s with documents := appendNewDocs s.documents selDocs }
        else s)) db
    if ioFail then UIOutcome.raised "DatabaseError"
    else UIOutcome.handled db2
      (Notification.positive "Documents added to selected sets successfully")

lemma getRun_updateRun_self (db : BatchDB) (rid : Nat) (f : BatchRunRow → BatchRunRow)
    (hf : ∀ r, (f r).id = r.id) (run : BatchRunRow) (h : getRun db rid = some run) :
    getRun (updateRun db rid f) rid = some (f run) := by
  unfold getRun at h
  unfold getRun updateRun
  rw [find?_map_id_pres _ _
        (fun r => by by_cases hr : r.id = rid <;> simp [hr, hf]) rid]
  rw [h]
  have hid : run.id = rid := by simpa using List.find?_some h
  simp [hid]

lemma pollerGo_preserves (ok : Nat → Nat → Bool) (now : Nat)
    (pending : List BatchRunRow) (db : BatchDB) (rid : Nat)
    (hp : ∀ p ∈ pending, p.id ≠ rid) :
    getRun (pollerGo ok now pending db) rid = getRun db rid := by
  induction pending generalizing db with
  | nil => rfl
  | cons p rest ih =>
    rw [pollerGo]
    rw [ih _ (fun q hq => hp q (List.mem_cons_of_mem p hq))]
    exact getRun_process_batch_run_other ok now p.id rid db
      (Ne.symm (hp p (List.mem_cons_self p rest)))

lemma mem_id_unique (rid : Nat) (l : List BatchRunRow)
    (hnd : (l.map (fun r => r.id)).Nodup) (p run : BatchRunRow) (hp : p ∈ l)
    (hfind : l.find? (fun r => r.id == rid) = some run) (hid : p.id = rid) :
    p = run := by
  induction l with
  | nil => cases hp
  | cons a t ih =>
    by_cases ha : a.id = rid
    · have hrun : run = a := by
        rw [List.find?_cons_of_pos _ (by simpa using ha)] at hfind
        exact (Option.some.inj hfind).symm
      rcases List.mem_cons.mp hp with h1 | h1
      · rw [h1, hrun]
      · exfalso
        have : a.id ∈ t.map (fun r => r.id) :=
          List.mem_map.mpr ⟨p, h1, by rw [hid, ha]⟩
        exact (List.nodup_cons.mp hnd).1 this
    · rcases List.mem_cons.mp hp with h1 | h1
      · exact absurd (h1 ▸ hid) ha
      · refine ih (List.nodup_cons.mp hnd).2 h1 ?_
        rw [List.find?_cons_of_neg _ (by simpa using ha)] at hfind
        exact hfind

lemma poller_tick_preserves_nonpending (ok : Nat → Nat → Bool) (now : Nat)
    (db : BatchDB) (rid : Nat) (run : BatchRunRow)
    (hnd : (db.runs.map (fun r => r.id)).Nodup)
    (h : getRun db rid = some run) (hst : run.status ≠ "pending") :
    getRun (poller_tick ok now db) rid = some run := by
  unfold poller_tick
  rw [pollerGo_preserves]
  · exact h
  · intro p hp hEq
    have hmem : p ∈ db.runs := List.mem_of_mem_filter hp
    have hpend : pendingAndDue now p = true := List.of_mem_filter hp
    have hpeq : p = run := mem_id_unique rid db.runs hnd p run hmem h hEq
    have : p.status = "pending" := by
      have := (Bool.and_eq_true _ _).mp hpend
      simpa using this.1
    rw [hpeq] at this
    exact hst this

/-- Claim C5 counterexample: `approve_run` checks no current status, so applied
to a run whose status is `rejected` (a stale approve dialog id) it moves the
run to `approved` — `rejected` is not an absorbing state. -/
theorem c5_counterexample :
    (approve_run
        { runs := [{ id := 1, name := "Legacy System Comparison", status := "rejected",
                     scheduled_for := none, created_at := 0, completed_at := none,
                     documents := [], prompts := [] }],
          results := [], documents := [], prompts := [] }
        (some 1) (some 5)).1.runs =
      [{ id := 1, name := "Legacy System Comparison", status := "approved",
         scheduled_for := some 5, created_at := 0, completed_at := none,
         documents := [], prompts := [] }] := by
  rfl

/-- Claim C5 amended: a rejected run is preserved by the poller tick (which
only launches runs whose status is `pending`) and by `reject_run`; but
`approve_run` performs no status check and moves a rejected run to `approved`,
and `process_batch_run`, if invoked with a rejected run's id, likewise drives
it to `completed`/`failed`. -/
theorem c5_rejected_preserved_except_approve :
    (∀ (ok : Nat → Nat → Bool) (now : Nat) (db : BatchDB) (rid : Nat) (run : BatchRunRow),
       (db.runs.map (fun r => r.id)).Nodup → getRun db rid = some run →
       run.status = "rejected" →
       getRun (poller_tick ok now db) rid = some run) ∧
    (∀ (db : BatchDB) (rid : Nat) (run : BatchRunRow) (reason : String),
       getRun db rid = some run → run.status = "rejected" →
       getRun (reject_run db (some rid) reason).1 rid = some run) ∧
    (∀ (db : BatchDB) (rid t : Nat) (run : BatchRunRow),
       getRun db rid = some run → run.status = "rejected" →
       getRun (approve_run db (some rid) (some t)).1 rid =
         some { run with status := "approved", scheduled_for := some t }) ∧
    (∀ (ok : Nat → Nat → Bool) (now rid : Nat) (db : BatchDB) (run : BatchRunRow),
       getRun db rid = some run → run.status = "rejected" →
       getRun (process_batch_run ok now rid db) rid =
         some { run with status := if batchSuccess ok run then "completed" else "failed",
                         completed_at := some now }) := by
  refine ⟨?_, ?_, ?_, ?_⟩
  · intro ok now db rid run hnd h hrej
    exact poller_tick_preserves_nonpending ok now db rid run hnd h (by rw [hrej]; decide)
  · intro db rid run reason h hrej
    by_cases hre : reason = ""
    · simp only [reject_run, hre, if_pos]
      exact h
    · simp only [reject_run, if_neg hre, h]
      have heq : ({ run with status := "rejected" } : BatchRunRow) = run := by
        cases run
        simp_all
      rw [getRun_updateRun_self db rid
            (fun r => { r with status := "rejected" }) (fun r => rfl) run h, heq]
  · intro db rid t run h hrej
    simp only [approve_run, h]
    exact getRun_updateRun_self db rid
      (fun r => { r with status := "approved", scheduled_for := some t })
      (fun r => rfl) run h
  · intro ok now rid db run h hrej
    exact getRun_process_batch_run_self ok now rid db run h

/-- Concrete check of `c5_rejected_preserved_except_approve` on a database with
a rejected run (id 1) and a due pending run (id 2). -/
theorem c5_rejected_preserved_except_approve_witness :
    getRun (poller_tick (fun _ _ => true) 7
        { runs := [{ id := 1, name := "x", status := "rejected", scheduled_for := none,
                     created_at := 0, completed_at := none, documents := [], prompts := [] },
                   { id := 2, name := "y", status := "pending", scheduled_for := some 0,
                     created_at := 0, completed_at := none, documents := [], prompts := [] }],
          results := [], documents := [], prompts := [] }) 1 =
      some { id := 1, name := "x", status := "rejected", scheduled_for := none,
             created_at := 0, completed_at := none, documents := [], prompts := [] } ∧
    getRun (reject_run
        { runs := [{ id := 1, name := "x", status := "rejected", scheduled_for := none,
                     created_at := 0, completed_at := none, documents := [], prompts := [] },
                   { id := 2, name := "y", status := "pending", scheduled_for := some 0,
                     created_at := 0, completed_at := none, documents := [], prompts := [] }],
          results := [], documents := [], prompts := [] } (some 1) "outdated docs").1 1 =
      some { id := 1, name := "x", status := "rejected", scheduled_for := none,
             created_at := 0, completed_at := none, documents := [], prompts := [] } ∧
    getRun (approve_run
        { runs := [{ id := 1, name := "x", status := "rejected", scheduled_for := none,
                     created_at := 0, completed_at := none, documents := [], prompts := [] },
                   { id := 2, name := "y", status := "pending", scheduled_for := some 0,
                     created_at := 0, completed_at := none, documents := [], prompts := [] }],
          results := [], documents := [], prompts := [] } (some 1) (some 9)).1 1 =
      some { id := 1, name := "x", status := "approved", scheduled_for := some 9,
             created_at := 0, completed_at := none, documents := [], prompts := [] } ∧
    getRun (process_batch_run (fun _ _ => true) 7 1
        { runs := [{ id := 1, name := "x", status := "rejected", scheduled_for := none,
                     created_at := 0, completed_at := none, documents := [], prompts := [] },
                   { id := 2, name := "y", status := "pending", scheduled_for := some 0,
                     created_at := 0, completed_at := none, documents := [], prompts := [] }],
          results := [], documents := [], prompts := [] }) 1 =
      some { id := 1, name := "x",
             status := if batchSuccess (fun _ _ => true)
                 { id := 1, name := "x", status := "rejected", scheduled_for := none,
                   created_at := 0, completed_at := none, documents := [], prompts := [] }
               then "completed" else "failed",
             scheduled_for := none, created_at := 0, completed_at := some 7,
             documents := [], prompts := [] } :=
  ⟨c5_rejected_preserved_except_approve.1 (fun _ _ => true) 7 _ 1 _ (by decide) rfl rfl,
   c5_rejected_preserved_except_approve.2.1 _ 1 _ "outdated docs" rfl rfl,
   c5_rejected_preserved_except_approve.2.2.1 _ 1 9
     { id := 1, name := "x", status := "rejected", scheduled_for := none,
       created_at := 0, completed_at := none, documents := [], prompts := [] } rfl rfl,
   c5_rejected_preserved_except_approve.2.2.2 (fun _ _ => true) 7 1 _
     { id := 1, name := "x", status := "rejected", scheduled_for := none,
       created_at := 0, completed_at := none, documents := [], prompts := [] } rfl rfl⟩

/-- Claim C2 counterexample: the user-facing manual run path constructs its
`BatchRun` already in the terminal status `completed` — starting from a
database with no runs at all, the state `run_prompts` writes contains exactly
one run, created directly as `completed`, with no intermediate states; the
operation itself then fails its commit (NULL `scheduled_for`) and reports an
error. -/
theorem c2_counterexample :
    (run_prompts_session { runs := [], results := [], documents := [1], prompts := [2] }
        [1] [2] 5).runs.map (fun r => r.status) = ["completed"] ∧
    ({ runs := [], results := [], documents := [1], prompts := [2] } : BatchDB).runs = [] ∧
    run_prompts { runs := [], results := [], documents := [1], prompts := [2] } [1] [2] 5 =
      ({ runs := [], results := [], documents := [1], prompts := [2] },
       Notification.negative "Error running prompts") := by
  exact ⟨rfl, rfl, rfl⟩

/-- Claim C2 amended: the operations that write statuses behave as follows —
`approve_run` and `reject_run` set the targeted run to `approved` /
`rejected` (without checking its current status), `process_batch_run` drives
its run to `completed` or `failed` with a completion timestamp, the poller
tick never touches a run whose status is not `pending`; but the manual
`run_prompts` and `save_results` paths construct `BatchRun` rows that are
already `completed` at creation, skipping every intermediate state (and no
operation launches runs in status `approved`: the poller selects `pending`
only). -/
theorem c2_status_transitions :
    (∀ (db : BatchDB) (rid t : Nat) (run : BatchRunRow),
       getRun db rid = some run →
       getRun (approve_run db (some rid) (some t)).1 rid =
         some { run with status := "approved", scheduled_for := some t }) ∧
    (∀ (db : BatchDB) (rid : Nat) (reason : String) (run : BatchRunRow),
       getRun db rid = some run → reason ≠ "" →
       getRun (reject_run db (some rid) reason).1 rid =
         some { run with status := "rejected" }) ∧
    (∀ (ok : Nat → Nat → Bool) (now rid : Nat) (db : BatchDB) (run : BatchRunRow),
       getRun db rid = some run →
       ∃ run2, getRun (process_batch_run ok now rid db) rid = some run2 ∧
         (run2.status = "completed" ∨ run2.status = "failed") ∧
         run2.completed_at = some now) ∧
    (∀ (ok : Nat → Nat → Bool) (now : Nat) (db : BatchDB) (rid : Nat) (run : BatchRunRow),
       (db.runs.map (fun r => r.id)).Nodup → getRun db rid = some run →
       run.status ≠ "pending" →
       getRun (poller_tick ok now db) rid = some run) ∧
    (∀ (db : BatchDB) (selectedDocs selectedPrompts : List Nat) (now : Nat),
       (run_prompts_run db selectedDocs selectedPrompts now).status = "completed") ∧
    (∀ (db : BatchDB) (runName : String) (now : Nat),
       (save_results_run db runName now).status = "completed") := by
  refine ⟨?_, ?_, ?_, ?_, fun _ _ _ _ => rfl, fun _ _ _ => rfl⟩
  · intro db rid t run h
    simp only [approve_run, h]
    exact getRun_updateRun_self db rid
      (fun r => { r with status := "approved", scheduled_for := some t })
      (fun r => rfl) run h
  · intro db rid reason run h hre
    simp only [reject_run, if_neg hre, h]
    exact getRun_updateRun_self db rid
      (fun r => { r with status := "rejected" }) (fun r => rfl) run h
  · intro ok now rid db run h
    refine ⟨_, getRun_process_batch_run_self ok now rid db run h, ?_, rfl⟩
    by_cases hs : batchSuccess ok run = true
    · left; simp [hs]
    · right; simp [hs]
  · intro ok now db rid run hnd h hst
    exact poller_tick_preserves_nonpending ok now db rid run hnd h hst

/-- Concrete check of `c2_status_transitions` on a database holding one
pending-approval run (id 1) and one completed run (id 2). -/
theorem c2_status_transitions_witness :
    getRun (approve_run
        { runs := [{ id := 1, name := "x", status := "pending_approval",
                     scheduled_for := none, created_at := 0, completed_at := none,
                     documents := [], prompts := [] }],
          results := [], documents := [], prompts := [] } (some 1) (some 8)).1 1 =
      some { id := 1, name := "x", status := "approved", scheduled_for := some 8,
             created_at := 0, completed_at := none, documents := [], prompts := [] } ∧
    getRun (reject_run
        { runs := [{ id := 1, name := "x", status := "pending_approval",
                     scheduled_for := none, created_at := 0, completed_at := none,
                     documents := [], prompts := [] }],
          results := [], documents := [], prompts := [] } (some 1) "no budget").1 1 =
      some { id := 1, name := "x", status := "rejected", scheduled_for := none,
             created_at := 0, completed_at := none, documents := [], prompts := [] } ∧
    (∃ run2, getRun (process_batch_run (fun _ _ => true) 4 1
        { runs := [{ id := 1, name := "x", status := "pending_approval",
                     scheduled_for := none, created_at := 0, completed_at := none,
                     documents := [], prompts := [] }],
          results := [], documents := [], prompts := [] }) 1 = some run2 ∧
       (run2.status = "completed" ∨ run2.status = "failed") ∧
       run2.completed_at = some 4) ∧
    getRun (poller_tick (fun _ _ => true) 4
        { runs := [{ id := 2, name := "y", status := "completed",
                     scheduled_for := some 0, created_at := 0, completed_at := some 1,
                     documents := [], prompts := [] }],
          results := [], documents := [], prompts := [] }) 2 =
      some { id := 2, name := "y", status := "completed", scheduled_for := some 0,
             created_at := 0, completed_at := some 1, documents := [], prompts := [] } :=
  ⟨c2_status_transitions.1 _ 1 8
     { id := 1, name := "x", status := "pending_approval", scheduled_for := none,
       created_at := 0, completed_at := none, documents := [], prompts := [] } rfl,
   c2_status_transitions.2.1 _ 1 "no budget"
     { id := 1, name := "x", status := "pending_approval", scheduled_for := none,
       created_at := 0, completed_at := none, documents := [], prompts := [] }
     rfl (by decide),
   c2_status_transitions.2.2.1 (fun _ _ => true) 4 1 _
     { id := 1, name := "x", status := "pending_approval", scheduled_for := none,
       created_at := 0, completed_at := none, documents := [], prompts := [] } rfl,
   c2_status_transitions.2.2.2.1 (fun _ _ => true) 4 _ 2
     { id := 2, name := "y", status := "completed", scheduled_for := some 0,
       created_at := 0, completed_at := some 1, documents := [], prompts := [] }
     (by decide) rfl (by decide)⟩

lemma promptRows_batch_run_id (ok : Nat → Nat → Bool) (did rid : Nat) (pids : List Nat) :
    ∀ r ∈ promptRows ok did rid pids, r.batch_run_id = rid := by
  intro r hr
  rcases List.mem_filterMap.mp hr with ⟨pid, _, hif⟩
  by_cases h : ok did pid = true
  · rw [if_pos h] at hif
    rw [← Option.some.inj hif]
    rfl
  · rw [if_neg h] at hif
    cases hif

lemma pairRows_batch_run_id (ok : Nat → Nat → Bool) (rid : Nat) (dids pids : List Nat) :
    ∀ r ∈ pairRows ok rid dids pids, r.batch_run_id = rid := by
  induction dids with
  | nil => intro r hr; cases hr
  | cons did rest ih =>
    intro r hr
    rcases List.mem_append.mp hr with h1 | h1
    · exact promptRows_batch_run_id ok did rid pids r h1
    · exact ih r h1

lemma promptRows_length_of_all (ok : Nat → Nat → Bool) (did rid : Nat)
    (pids : List Nat) (h : pids.all (fun pid => ok did pid) = true) :
    (promptRows ok did rid pids).length = pids.length := by
  induction pids with
  | nil => rfl
  | cons pid rest ih =>
    rw [List.all_cons, Bool.and_eq_true] at h
    rw [promptRows, List.filterMap_cons, if_pos h.1]
    rw [List.length_cons]
    rw [show promptRows ok did rid rest = rest.filterMap
          (fun pid => if ok did pid then some (mkResult did pid rid) else none) from rfl] at ih
    rw [ih h.2]
    rfl

lemma pairRows_length_of_success (ok : Nat → Nat → Bool) (rid : Nat)
    (dids pids : List Nat)
    (h : dids.all (fun did => pids.all (fun pid => ok did pid)) = true) :
    (pairRows ok rid dids pids).length = dids.length * pids.length := by
  induction dids with
  | nil => simp [pairRows]
  | cons did rest ih =>
    rw [List.all_cons, Bool.and_eq_true] at h
    rw [pairRows, List.length_append, promptRows_length_of_all ok did rid pids h.1,
        ih h.2, List.length_cons, Nat.succ_mul, Nat.add_comm]

/-- Claim C1 counterexample: `save_results` sets status `completed` on a run to
which it attaches no documents and no prompts while adding one result row per
saved entry — in the state it writes, the completed run has 1 result but
|documents| × |prompts| = 0. -/
theorem c1_counterexample :
    (save_results_session { runs := [], results := [], documents := [1], prompts := [2] }
        "Saved Analysis" [{ document_id := 1, prompt_id := 2, result := "r" }] 0).runs.map
        (fun r => (r.status, r.documents.length * r.prompts.length)) = [("completed", 0)] ∧
    (save_results_session { runs := [], results := [], documents := [1], prompts := [2] }
        "Saved Analysis" [{ document_id := 1, prompt_id := 2, result := "r" }] 0).results.countP
        (fun r => r.batch_run_id == 0) = 1 ∧
    (1 : Nat) ≠ 0 := by
  exact ⟨rfl, rfl, by decide⟩

/-- Claim C1 amended: the invariant holds on the poller path — a run that
`process_batch_run` leaves in status `completed` (and that had no result rows
beforehand) has exactly |documents| × |prompts| result rows; the manual
`run_prompts` and `save_results` paths never persist anything at all (their
new run's NULL `scheduled_for` makes the commit fail), and the state
`save_results` attempts to write violates the equality (see the
counterexample). -/
theorem c1_completed_result_counts :
    (∀ (ok : Nat → Nat → Bool) (now rid : Nat) (db : BatchDB) (run run2 : BatchRunRow),
       getRun db rid = some run →
       db.results.countP (fun r => r.batch_run_id == rid) = 0 →
       getRun (process_batch_run ok now rid db) rid = some run2 →
       run2.status = "completed" →
       (process_batch_run ok now rid db).results.countP
           (fun r => r.batch_run_id == rid) =
         run2.documents.length * run2.prompts.length) ∧
    (∀ (db : BatchDB) (runName : String) (toSave : List SavedResult) (now : Nat),
       (save_results db runName toSave now).1 = db) ∧
    (∀ (db : BatchDB) (selectedDocs selectedPrompts : List Nat) (now : Nat),
       (run_prompts db selectedDocs selectedPrompts now).1 = db) := by
  refine ⟨?_, ?_, ?_⟩
  · intro ok now rid db run run2 h h0 h2 hcomp
    have hself := getRun_process_batch_run_self ok now rid db run h
    rw [h2] at hself
    have hrun2 := Option.some.inj hself
    have hsucc : batchSuccess ok run = true := by
      by_cases hs : batchSuccess ok run = true
      · exact hs
      · exfalso
        have : run2.status = "failed" := by rw [hrun2]; simp [hs]
        rw [hcomp] at this
        exact absurd this (by decide)
    have hdocs : run2.documents = run.documents := by rw [hrun2]
    have hprompts : run2.prompts = run.prompts := by rw [hrun2]
    rw [process_batch_run_eq ok now rid db run h]
    simp only [List.countP_append, h0, Nat.zero_add]
    rw [List.countP_eq_length.mpr
          (fun r hr => by simpa using pairRows_batch_run_id ok rid _ _ r hr)]
    rw [pairRows_length_of_success ok rid run.documents run.prompts hsucc]
    rw [hdocs, hprompts]
  · intro db runName toSave now
    by_cases hn : runName = ""
    · simp [save_results, hn]
    · simp [save_results, hn, notNullOk, save_results_run]
  · intro db selectedDocs selectedPrompts now
    by_cases hd : selectedDocs.isEmpty = true
    · simp [run_prompts, hd]
    · by_cases hp : selectedPrompts.isEmpty = true
      · simp [run_prompts, hd, hp]
      · simp [run_prompts, hd, hp, notNullOk, run_prompts_run]

/-- Concrete check of `c1_completed_result_counts`: a pending run with one
document and two prompts, all pairs succeeding, ends `completed` with exactly
1 × 2 result rows. -/
theorem c1_completed_result_counts_witness :
    (process_batch_run (fun _ _ => true) 9 0
        { runs := [{ id := 0, name := "w", status := "pending", scheduled_for := some 0,
                     created_at := 0, completed_at := none,
                     documents := [1], prompts := [2, 3] }],
          results := [], documents := [1], prompts := [2, 3] }).results.countP
        (fun r => r.batch_run_id == 0) =
      ({ id := 0, name := "w", status := "completed", scheduled_for := some 0,
         created_at := 0, completed_at := some 9,
         documents := [1], prompts := [2, 3] } : BatchRunRow).documents.length *
      ({ id := 0, name := "w", status := "completed", scheduled_for := some 0,
         created_at := 0, completed_at := some 9,
         documents := [1], prompts := [2, 3] } : BatchRunRow).prompts.length :=
  c1_completed_result_counts.1 (fun _ _ => true) 9 0 _
    { id := 0, name := "w", status := "pending", scheduled_for := some 0,
      created_at := 0, completed_at := none, documents := [1], prompts := [2, 3] }
    { id := 0, name := "w", status := "completed", scheduled_for := some 0,
      created_at := 0, completed_at := some 9, documents := [1], prompts := [2, 3] }
    rfl rfl (by rfl) rfl

/-- Claim C6: `models.BatchRun` maps neither a `description` nor a
`rejection_reason` column, so the `BatchRun(description=...)` call in
`submit_batch_request` raises `TypeError` and the operation always ends in the
caught-error notification with nothing persisted — evaluated here at a
concrete, fully valid submission. (The `rejection_reason` write in
`reject_run` is likewise an unmapped transient attribute that cannot survive a
database round trip.) -/
theorem c6_missing_batchrun_columns :
    ¬ ("description" ∈ batchRunMappedAttrs) ∧
    ¬ ("rejection_reason" ∈ batchRunMappedAttrs) ∧
    declarativeInit batchRunMappedAttrs
        ["name", "description", "status", "scheduled_for"] =
      Except.error "invalid keyword argument" ∧
    submit_batch_request { runs := [], results := [], documents := [1], prompts := [2] }
        "Run A" "Quarterly documentation review" [1] [2] =
      ({ runs := [], results := [], documents := [1], prompts := [2] },
       Notification.negative "Error submitting batch run request") := by
  exact ⟨by decide, by decide, by rfl, by rfl⟩

/-- Claim C4 counterexample: the submission path performs no range check — the
out-of-range rating 7 is stored as-is (only Python-falsy ratings, `None` and
0, are rejected), so "stores a row only if the rating is between 1 and 5" is
false. -/
theorem c4_counterexample :
    submit_feedback false (some 7) "great" (some 1) [] =
      UIOutcome.handled [{ result_id := some 1, rating := 7, comment := "great" }]
        (Notification.positive "Feedback submitted successfully") ∧
    ¬ ((1 : Int) ≤ 7 ∧ (7 : Int) ≤ 5) := by
  exact ⟨by rfl, by decide⟩

/-- Claim C4 amended: `submit_feedback` rejects exactly a missing rating or the
integer 0 (Python falsiness of the select value); every other rating is stored
unchanged, so the 1–5 range is enforced only by the dialog's select options,
which offer precisely the values 1 to 5. -/
theorem c4_rating_validation :
    (∀ (r : Int) (comment : String) (resultId : Option Nat) (db : List FeedbackRow),
       submit_feedback false (some r) comment resultId db =
         if r = 0 then
           UIOutcome.handled db (Notification.warning "Please select a rating")
         else
           UIOutcome.handled
             (db ++ [{ result_id := resultId, rating := r, comment := comment }])
             (Notification.positive "Feedback submitted successfully")) ∧
    (∀ (comment : String) (resultId : Option Nat) (db : List FeedbackRow),
       submit_feedback false none comment resultId db =
         UIOutcome.handled db (Notification.warning "Please select a rating")) ∧
    uiRatingOptions.all (fun r => decide (1 ≤ r) && decide (r ≤ 5)) = true := by
  refine ⟨?_, fun _ _ _ => rfl, by decide⟩
  intro r comment resultId db
  by_cases h : r = 0 <;> simp [submit_feedback, h]

/-- Claim C7 counterexample: `save_prompt` has no exception handler, so a
database failure at commit propagates to the caller instead of surfacing as a
notification. -/
theorem c7_counterexample :
    save_prompt true "Summary" "Summarize this document" [] =
      UIOutcome.raised "DatabaseError" := by
  rfl

/-- Claim C7 amended: handlers that wrap their work in try/except (such as
`submit_feedback`) never propagate an exception for any input or database
failure; but `create_set`, `add_to_set` and `save_prompt` have no handler —
whenever they get past their input guard, a database failure at commit
propagates to the caller. -/
theorem c7_unguarded_handlers :
    (∀ (ioFail : Bool) (rating : Option Int) (comment : String)
       (resultId : Option Nat) (db : List FeedbackRow),
       raisesB (submit_feedback ioFail rating comment resultId db) = false) ∧
    (∀ (setName desc : Str) (selDocs : List Nat) (queryOpt : Option DocumentQuery)
       (db : List DocumentSet),
       raisesB (create_set true setName desc selDocs queryOpt db) = !setName.isEmpty) ∧
    (∀ (selSets selDocs : List Nat) (db : List DocumentSet),
       raisesB (add_to_set true selSets selDocs db) = !selSets.isEmpty) ∧
    (∀ (promptName promptContent : String) (db : List PromptRow),
       raisesB (save_prompt true promptName promptContent db) =
         !(decide (promptName = "") || decide (promptContent = ""))) := by
  refine ⟨?_, ?_, ?_, ?_⟩
  · intro ioFail rating comment resultId db
    cases rating with
    | none => rfl
    | some r =>
      by_cases h : r = 0
      · simp [submit_feedback, h, raisesB]
      · cases ioFail <;> simp [submit_feedback, h, raisesB]
  · intro setName desc selDocs queryOpt db
    cases h : setName.isEmpty <;> simp [create_set, h, raisesB]
  · intro selSets selDocs db
    cases h : selSets.isEmpty <;> simp [add_to_set, h, raisesB]
  · intro promptName promptContent db
    by_cases h1 : promptName = ""
    · simp [save_prompt, h1, raisesB]
    · by_cases h2 : promptContent = "" <;> simp [save_prompt, h1, h2, raisesB]
